import Mathlib

/-!
Verification of the match-gathering pipeline of the league-trading repository.

The development shallowly embeds the code under src/ :
  * src/data/riot_api.py   : payload parsing (MatchParticipant.from_json, Match.from_json)
  * src/data/duckdb.py     : MatchDatabase (upsert_many, get_only_new_match_ids) and
                             QueryProgressTracker (get_query_start_index, update_start_index)
  * src/data/match_generation.py : gather_matches (fetch_for_player, fetch_match_details)
                             and query_matches
  * src/utils/util.py      : Rank enum and PLATFORM_TO_REGION

Python exceptions are modelled with an explicit error type and Except; Python dict
payloads are modelled by a small JSON value type.  Network calls (the RiotAPI
collaborator) and the ISO-8601 time parser are modelled as oracles supplied as
parameters, since the spec treats the wire-level client as an external collaborator.
Both concurrency batch sizes in match_generation.py are hard-set to 1 (lines 58 and
98), so each phase is a sequential left fold over its work list, in list order.
-/

/-- Kinds of Python exception that the embedded code can raise.  Each constructor
corresponds to an exception class used or triggered by the source. -/
inductive PyError where
  | valueError (msg : String)
  | typeError (msg : String)
  | keyError (key : String)
  | attributeError (msg : String)
  | zeroDivisionError
  | requestError (msg : String)
deriving DecidableEq, Repr

/-- Test whether an error is a KeyError; models Python except-KeyError clauses,
which catch KeyError and let every other exception class propagate. -/
def PyError.isKeyError : PyError → Bool
  | .keyError _ => true
  | _ => false

/-- Test whether an Except computation succeeded (did not raise). -/
def Except.isOkE {ε α : Type} : Except ε α → Bool
  | .ok _ => true
  | .error _ => false

/-- JSON values, modelling the Python objects that the requests library returns
and that riot_api.py parses.  Objects are association lists of fields. -/
inductive Json where
  | null
  | str (s : String)
  | num (n : Int)
  | bool (b : Bool)
  | arr (xs : List Json)
  | obj (fields : List (String × Json))
deriving Repr

/-- Python truthiness of a JSON value, as used by if-statements and the
falsiness test of riot_api.py (for example if not champion_name). -/
def Json.truthy : Json → Bool
  | .null => false
  | .str s => s ≠ ""
  | .num n => n ≠ 0
  | .bool b => b
  | .arr xs => !xs.isEmpty
  | .obj fs => !fs.isEmpty

/-- Python str() rendering of a JSON value, used by the champion_id fallback
(champion_name = str(champion_id)) and by the TEXT columns of the database. -/
def pyStr : Json → String
  | .null => "None"
  | .str s => s
  | .num n => toString n
  | .bool true => "True"
  | .bool false => "False"
  | .arr _ => "<list>"
  | .obj _ => "<dict>"

/-- Python subscripting payload[key]: KeyError when the key is absent from a
dict, TypeError when the value is not a dict at all. -/
def Json.subscript (j : Json) (k : String) : Except PyError Json :=
  match j with
  | .obj fields =>
    match fields.find? (fun f => f.1 = k) with
    | some f => .ok f.2
    | none => .error (.keyError k)
  | _ => .error (.typeError "object is not subscriptable")

/-- Python dict.get(key): None when the key is absent, AttributeError when the
receiver is not a dict. -/
def Json.pyGet (j : Json) (k : String) : Except PyError Json :=
  match j with
  | .obj fields =>
    match fields.find? (fun f => f.1 = k) with
    | some f => .ok f.2
    | none => .ok .null
  | _ => .error (.attributeError "object has no attribute get")

/-- Run a computation inside a Python except-KeyError handler that re-raises a
ValueError with the given message; all other exception classes propagate. -/
def catchKeyError (msg : String) (r : Except PyError Json) : Except PyError Json :=
  match r with
  | .ok v => .ok v
  | .error e => .error (if e.isKeyError then .valueError msg else e)

/-- The Rank enum of src/utils/util.py: 28 divided ranks plus the three apex
tiers, with the same numeric values. -/
inductive Rank where
  | IRON_IV | IRON_III | IRON_II | IRON_I
  | BRONZE_IV | BRONZE_III | BRONZE_II | BRONZE_I
  | SILVER_IV | SILVER_III | SILVER_II | SILVER_I
  | GOLD_IV | GOLD_III | GOLD_II | GOLD_I
  | PLAT_IV | PLAT_III | PLAT_II | PLAT_I
  | EMERALD_IV | EMERALD_III | EMERALD_II | EMERALD_I
  | DIAMOND_IV | DIAMOND_III | DIAMOND_II | DIAMOND_I
  | MASTER | GRANDMASTER | CHALLENGER
deriving DecidableEq, Repr

/-- Numeric value of a Rank member, as declared in util.py. -/
def Rank.value : Rank → Nat
  | .IRON_IV => 0 | .IRON_III => 1 | .IRON_II => 2 | .IRON_I => 3
  | .BRONZE_IV => 4 | .BRONZE_III => 5 | .BRONZE_II => 6 | .BRONZE_I => 7
  | .SILVER_IV => 8 | .SILVER_III => 9 | .SILVER_II => 10 | .SILVER_I => 11
  | .GOLD_IV => 12 | .GOLD_III => 13 | .GOLD_II => 14 | .GOLD_I => 15
  | .PLAT_IV => 16 | .PLAT_III => 17 | .PLAT_II => 18 | .PLAT_I => 19
  | .EMERALD_IV => 20 | .EMERALD_III => 21 | .EMERALD_II => 22 | .EMERALD_I => 23
  | .DIAMOND_IV => 24 | .DIAMOND_III => 25 | .DIAMOND_II => 26 | .DIAMOND_I => 27
  | .MASTER => 28 | .GRANDMASTER => 29 | .CHALLENGER => 30

/-- The PLATFORM_TO_REGION dict of src/utils/util.py. -/
def PLATFORM_TO_REGION : List (String × String) :=
  [("NA1", "americas"), ("BR1", "americas"), ("LA1", "americas"), ("LA2", "americas"),
   ("RU", "europe"), ("ME1", "europe"), ("TR1", "europe"), ("EUN1", "europe"),
   ("EUW1", "europe"),
   ("OC1", "sea"), ("SG2", "sea"), ("TW2", "sea"), ("VN2", "sea"),
   ("JP1", "asia"), ("KR", "asia")]

/-- Dict lookup PLATFORM_TO_REGION[platform] performed by fetch_for_player;
KeyError on an unknown platform code. -/
def platformRegion (platform : String) : Except PyError String :=
  match PLATFORM_TO_REGION.find? (fun f => f.1 = platform) with
  | some f => .ok f.2
  | none => .error (.keyError platform)


/-!  Parsing layer: MatchParticipant and Match of src/data/riot_api.py.  -/

/-- An individual participant within a match (riot_api.py lines 42-52).  The
frozen dataclass declares rank_num without a default value, so the generated
constructor requires it.  Field values are JSON payload values, since the
Python code performs no type conversion beyond those written in from_json. -/
structure MatchParticipant where
  puuid : Json
  champion : Json
  individual_position : Json
  team_position : Json
  team_id : Json
  win : Json
  rank_num : Option Rank
deriving Repr

/-- Error message of the ValueError raised when a participant payload lacks puuid. -/
def puuidMissingMsg : String := "MatchParticipant payload missing required field puuid"

/-- Error message of the ValueError raised when both championName and championId are absent. -/
def championMissingMsg : String :=
  "MatchParticipant payload missing both championName and championId"

/-- Error message of the ValueError raised when a positional or team field is absent. -/
def participantFieldsMsg : String := "MatchParticipant missing fields"

/-- Error message of the TypeError raised by the generated dataclass constructor
when it is invoked without the required rank_num argument. -/
def rankNumMissingMsg : String :=
  "MatchParticipant.__init__ missing 1 required positional argument rank_num"

/-- The champion-name fallback of MatchParticipant.from_json (riot_api.py
lines 63-72): a falsy championName falls back to str of championId, whose
KeyError is re-raised as ValueError. -/
def championFieldOf (payload : Json) (championName : Json) : Except PyError Json :=
  if championName.truthy then .ok championName
  else
    match catchKeyError championMissingMsg (payload.subscript "championId") with
    | .error e => .error e
    | .ok championId => .ok (.str (pyStr championId))

/-- Normalisation of the win field (riot_api.py lines 74-78): a string value
becomes the boolean test lower() == true, everything else is kept. -/
def winValOf (winRaw : Json) : Json :=
  match winRaw with
  | .str s => .bool (s.toLower == "true")
  | j => j

/-- MatchParticipant.from_json (riot_api.py lines 54-89).  The steps mirror the
source statement by statement: read puuid under an except-KeyError handler that
re-raises ValueError; read championName with dict.get and fall back to
str(championId); normalise a string-typed win value; then evaluate the three
remaining subscript expressions that appear as keyword arguments of the
constructor call, whose KeyErrors the final handler converts to ValueError.
The constructor call itself omits the required rank_num field of the frozen
dataclass, so when every field is present the call raises TypeError; no branch
returns a participant. -/
def MatchParticipant.from_json (payload : Json) : Except PyError MatchParticipant :=
  match catchKeyError puuidMissingMsg (payload.subscript "puuid") with
  | .error e => .error e
  | .ok _puuid =>
    match payload.pyGet "championName" with
    | .error e => .error e
    | .ok championName =>
      match championFieldOf payload championName with
      | .error e => .error e
      | .ok _champion =>
        match payload.pyGet "win" with
        | .error e => .error e
        | .ok winRaw =>
          let _win_val : Json := winValOf winRaw
          match catchKeyError participantFieldsMsg (payload.subscript "individualPosition") with
          | .error e => .error e
          | .ok _ =>
            match catchKeyError participantFieldsMsg (payload.subscript "teamPosition") with
            | .error e => .error e
            | .ok _ =>
              match catchKeyError participantFieldsMsg (payload.subscript "teamId") with
              | .error e => .error e
              | .ok _ => .error (.typeError rankNumMissingMsg)

/-- A match and its metadata (riot_api.py lines 92-104). -/
structure Match where
  match_id : Json
  game_creation : Json
  game_duration : Json
  game_end_timestamp : Json
  game_mode : Json
  game_start_timestamp : Json
  game_type : Json
  game_version : Json
  participants : List MatchParticipant
deriving Repr

/-- The _required helper of riot_api.py lines 31-39: fetch a key, raising
ValueError when it is absent (converted from KeyError) or when the value is
None or the empty string. -/
def requiredField (container : Json) (key : String) (context : String) : Except PyError Json :=
  match container.subscript key with
  | .error e =>
    .error (if e.isKeyError
      then .valueError (context ++ " missing required field " ++ key)
      else e)
  | .ok v =>
    match v with
    | .null => .error (.valueError (context ++ " field " ++ key ++ " is empty"))
    | .str s => if s = "" then .error (.valueError (context ++ " field " ++ key ++ " is empty")) else .ok v
    | _ => .ok v

/-- Convert KeyError to the ValueError raised by the final handler of
Match.from_json; other exception classes propagate. -/
def catchMatchFieldsErr (r : Except PyError Json) : Except PyError Json :=
  match r with
  | .ok v => .ok v
  | .error e => .error (if e.isKeyError then .valueError "Match missing fields" else e)

/-- Match.from_json (riot_api.py lines 106-141): read metadata, info and
info.participants (each KeyError re-raised as a specific ValueError), require
the participants payload to be a list, parse every participant in order with
errors propagating uncaught, then build the Match inside an except-KeyError
handler, with metadata.matchId checked through _required. -/
def Match.from_json (payload : Json) : Except PyError Match :=
  match catchKeyError "Match payload missing required field metadata" (payload.subscript "metadata") with
  | .error e => .error e
  | .ok metadata =>
    match catchKeyError "Match payload missing required field info" (payload.subscript "info") with
    | .error e => .error e
    | .ok info =>
      match catchKeyError "Match payload missing required field info.participants" (info.subscript "participants") with
      | .error e => .error e
      | .ok participantsPayload =>
        match participantsPayload with
        | .arr parts =>
          match parts.mapM MatchParticipant.from_json with
          | .error e => .error e
          | .ok participants =>
            match requiredField metadata "matchId" "metadata" with
            | .error e => .error e
            | .ok match_id =>
              match catchMatchFieldsErr (info.subscript "gameCreation") with
              | .error e => .error e
              | .ok gc =>
                match catchMatchFieldsErr (info.subscript "gameDuration") with
                | .error e => .error e
                | .ok gd =>
                  match catchMatchFieldsErr (info.subscript "gameEndTimestamp") with
                  | .error e => .error e
                  | .ok ge =>
                    match catchMatchFieldsErr (info.subscript "gameMode") with
                    | .error e => .error e
                    | .ok gm =>
                      match catchMatchFieldsErr (info.subscript "gameStartTimestamp") with
                      | .error e => .error e
                      | .ok gs =>
                        match catchMatchFieldsErr (info.subscript "gameType") with
                        | .error e => .error e
                        | .ok gt =>
                          match catchMatchFieldsErr (info.subscript "gameVersion") with
                          | .error e => .error e
                          | .ok gv =>
                            .ok ⟨match_id, gc, gd, ge, gm, gs, gt, gv, participants⟩
        | _ => .error (.valueError "Match payload field info.participants must be a list or tuple")

/-!  Storage layer: MatchDatabase and QueryProgressTracker of src/data/duckdb.py.
The DuckDB tables are modelled as in-memory lists of rows; every SQL statement
used by the source (primary-key lookups, ON CONFLICT DO NOTHING inserts,
ON CONFLICT DO UPDATE upserts) is written out against that representation. -/

/-- The (platform, start_time, end_time, puuid) primary key of the
query_progress table. -/
structure Ctx where
  platform : String
  start_time : String
  end_time : String
  puuid : String
deriving DecidableEq, Repr

/-- QueryProgressTracker.get_query_start_index (duckdb.py lines 183-211):
SELECT last_start_index by primary key, returning 0 when no row exists. -/
def get_query_start_index : List (Ctx × Nat) → Ctx → Nat
  | [], _ => 0
  | row :: rest, c => if row.1 = c then row.2 else get_query_start_index rest c

/-- QueryProgressTracker.update_start_index (duckdb.py lines 213-241): INSERT
with ON CONFLICT DO UPDATE on the primary key, so the existing row is replaced
or a new row appended. -/
def update_start_index : List (Ctx × Nat) → Ctx → Nat → List (Ctx × Nat)
  | [], c, n => [(c, n)]
  | row :: rest, c, n =>
    if row.1 = c then (c, n) :: rest else row :: update_start_index rest c n

/-- A row of the matches table (duckdb.py lines 24-33); match_id is the TEXT
primary key, the remaining columns hold the inserted payload values. -/
structure MatchesRow where
  match_id : String
  game_creation : Json
  game_duration : Json
  game_end_timestamp : Json
  game_mode : Json
  game_start_timestamp : Json
  game_type : Json
  game_version : Json
deriving Repr

/-- A row of the participants table (duckdb.py lines 34-45); the primary key is
(match_id, puuid), and rank_num stores the integer value of the Rank enum. -/
structure ParticipantsRow where
  match_id : String
  puuid : String
  champion : Json
  individual_position : Json
  team_position : Json
  team_id : Json
  win : Json
  rank_num : Option Int
deriving Repr

/-- The two tables managed by MatchDatabase.  The matches table is called
matchesTable here because matches is a reserved word in Lean. -/
structure MatchDB where
  matchesTable : List MatchesRow
  participants : List ParticipantsRow
deriving Repr

/-- The matches row inserted for a Match by upsert_match; the TEXT primary-key
column coerces the inserted match_id value to its string rendering. -/
def matchRowOf (m : Match) : MatchesRow :=
  ⟨pyStr m.match_id, m.game_creation, m.game_duration, m.game_end_timestamp,
   m.game_mode, m.game_start_timestamp, m.game_type, m.game_version⟩

/-- The participants row built by upsert_match (duckdb.py lines 63-79): rank_num
is read from the participant and unwrapped to its numeric enum value. -/
def participantRowOf (m : Match) (p : MatchParticipant) : ParticipantsRow :=
  ⟨pyStr m.match_id, pyStr p.puuid, p.champion, p.individual_position,
   p.team_position, p.team_id, p.win, p.rank_num.map (fun r => (r.value : Int))⟩

/-- INSERT INTO matches ... ON CONFLICT(match_id) DO NOTHING. -/
def insertMatchRow (rows : List MatchesRow) (r : MatchesRow) : List MatchesRow :=
  if rows.any (fun x => x.match_id == r.match_id) then rows else rows ++ [r]

/-- INSERT INTO participants ... ON CONFLICT(match_id, puuid) DO NOTHING. -/
def insertParticipantRow (rows : List ParticipantsRow) (r : ParticipantsRow) :
    List ParticipantsRow :=
  if rows.any (fun x => x.match_id == r.match_id && x.puuid == r.puuid) then rows
  else rows ++ [r]

/-- MatchDatabase.upsert_match (duckdb.py lines 49-86): insert the match row
ignoring a conflicting primary key, then insert each participant row in order,
ignoring conflicting (match_id, puuid) keys. -/
def upsert_match (db : MatchDB) (m : Match) : MatchDB :=
  ⟨insertMatchRow db.matchesTable (matchRowOf m),
   (m.participants.map (participantRowOf m)).foldl insertParticipantRow db.participants⟩

/-- MatchDatabase.upsert_many (duckdb.py lines 88-103): upsert each match in one
transaction, incrementing the returned counter once per match iterated. -/
def upsert_many (db : MatchDB) (ms : List Match) : MatchDB × Nat :=
  ms.foldl (fun acc m => (upsert_match acc.1 m, acc.2 + 1)) (db, 0)

/-- MatchDatabase.get_only_new_match_ids (duckdb.py lines 105-130): an empty
candidate set short-circuits to the empty set; otherwise one SELECT finds the
candidate ids already present as primary keys and the set difference is
returned.  The second component counts the SELECT queries executed. -/
def get_only_new_match_ids (db : MatchDB) (match_ids : List String) :
    List String × Nat :=
  if match_ids.isEmpty then ([], 0)
  else (match_ids.filter (fun id => !db.matchesTable.any (fun x => x.match_id == id)), 1)

/-!  Gatherer: gather_matches of src/data/match_generation.py.  The store
operations are parameters so that store outages (spec section 7) can be
modelled; duckdbStoreEnv instantiates them with the embeddings above, which
never fail.  The RiotAPI endpoints and the ISO-to-epoch conversion
(util.iso_to_timestamp_s, whose datetime parsing is outside the embedded core)
are oracles. -/

/-- Progress Store and Match Store operations as used by gather_matches; each
may raise, modelling an unavailable database. -/
structure StoreEnv where
  progress_get : List (Ctx × Nat) → Ctx → Except PyError Nat
  progress_set : List (Ctx × Nat) → Ctx → Nat → Except PyError (List (Ctx × Nat))
  db_get_only_new : MatchDB → List String → Except PyError (List String)
  db_upsert_many : MatchDB → List Match → Except PyError (MatchDB × Nat)

/-- The two RiotAPI endpoints used by gather_matches, as oracles.  The argument
order of get_match_ids_by_puuid is puuid, region, start_time_s, end_time_s,
start index, count; get_match takes match_id and region. -/
structure ApiEnv where
  get_match_ids_by_puuid :
    String → String → Int → Int → Nat → Nat → Except PyError (List String)
  get_match : String → String → Except PyError Json

/-- The store operations backed by the DuckDB embeddings above; none of them
raises. -/
def duckdbStoreEnv : StoreEnv where
  progress_get := fun db c => .ok (get_query_start_index db c)
  progress_set := fun db c n => .ok (update_start_index db c n)
  db_get_only_new := fun db ids => .ok (get_only_new_match_ids db ids).1
  db_upsert_many := fun db ms => .ok (upsert_many db ms)

/-- Python set.update: add each id to the accumulated set, ignoring ids already
present.  The list representation keeps first-insertion order; membership is
what the claims are stated in. -/
def setUpdate (s : List String) (ids : List String) : List String :=
  ids.foldl (fun acc id => if id ∈ acc then acc else acc ++ [id]) s

/-- matches_per_player (match_generation.py line 55):
max(math.ceil(target_num_matches / len(players)), 2), written with exact
natural-number ceiling division; only reached when num_players is nonzero. -/
def matches_per_player (target_num_matches : Nat) (num_players : Nat) : Nat :=
  max ((target_num_matches + num_players - 1) / num_players) 2

/-- The per-player phase-1 task fetch_for_player (match_generation.py lines
60-80).  The whole body runs inside try-except-Exception: read the stored
offset, convert both ISO times, look up the region, request up to
matches_per_player ids from the given offset, advance the stored offset by the
number of ids returned, and add any returned ids to the accumulated set.  On
any raise the handler logs and the shared state is left as it was (the only
mutation, the progress write, is itself the step that failed). -/
def fetch_for_player (store : StoreEnv) (api : ApiEnv)
    (iso_to_timestamp_s : String → Except PyError Int)
    (platform start_time end_time : String) (matchesPerPlayer : Nat)
    (st : List (Ctx × Nat) × List String) (puuid : String) :
    List (Ctx × Nat) × List String :=
  match store.progress_get st.1 ⟨platform, start_time, end_time, puuid⟩ with
  | .error _ => st
  | .ok start_index =>
    match iso_to_timestamp_s start_time with
    | .error _ => st
    | .ok start_time_s =>
      match iso_to_timestamp_s end_time with
      | .error _ => st
      | .ok end_time_s =>
        match platformRegion platform with
        | .error _ => st
        | .ok region =>
          match api.get_match_ids_by_puuid puuid region start_time_s end_time_s
              start_index matchesPerPlayer with
          | .error _ => st
          | .ok ids =>
            match store.progress_set st.1 ⟨platform, start_time, end_time, puuid⟩
                (start_index + ids.length) with
            | .error _ => st
            | .ok progress =>
              (progress, if ids.isEmpty then st.2 else setUpdate st.2 ids)

/-- Phase 1, fetch_all (match_generation.py lines 82-89): the player list is
cut into batches of batch_size_match_ids_by_puuid = 1 (line 58), so the tasks
run one after another in list order. -/
def fetch_all (store : StoreEnv) (api : ApiEnv)
    (iso_to_timestamp_s : String → Except PyError Int)
    (platform start_time end_time : String) (matchesPerPlayer : Nat)
    (players : List String) (init : List (Ctx × Nat) × List String) :
    List (Ctx × Nat) × List String :=
  players.foldl
    (fetch_for_player store api iso_to_timestamp_s platform start_time end_time
      matchesPerPlayer) init

/-- Evaluation of the attribute access and call match_obj.set_rank(rank)
(match_generation.py line 108).  The frozen dataclass Match (riot_api.py lines
92-141) defines no method or field named set_rank, and no definition of
set_rank exists anywhere in the repository, so the lookup raises
AttributeError; were it to succeed it would yield the match to append. -/
def Match.set_rank_attr (_m : Match) (_rank : Rank) : Except PyError Match :=
  .error (.attributeError "Match object has no attribute set_rank")

/-- The per-id phase-3 task fetch_match_details (match_generation.py lines
99-112).  The body runs inside try-except-Exception: fetch the match payload,
and if it is truthy, parse it with Match.from_json, call set_rank(rank) on the
result, and append the match to the accumulated list.  On any raise the
handler logs and the list is unchanged. -/
def fetch_match_details (api : ApiEnv) (platform : String) (rank : Rank)
    (matchesAcc : List Match) (match_id : String) : List Match :=
  match platformRegion platform with
  | .error _ => matchesAcc
  | .ok region =>
    match api.get_match match_id region with
    | .error _ => matchesAcc
    | .ok match_data =>
      if match_data.truthy then
        match Match.from_json match_data with
        | .error _ => matchesAcc
        | .ok match_obj =>
          match match_obj.set_rank_attr rank with
          | .error _ => matchesAcc
          | .ok stamped => matchesAcc ++ [stamped]
      else matchesAcc

/-- The state threaded through gather_matches: the query_progress table and the
match database (module-level singletons in the source). -/
structure GatherState where
  progress : List (Ctx × Nat)
  matchdb : MatchDB
deriving Repr

/-- gather_matches (match_generation.py lines 44-126).  An empty player list
makes the matches_per_player division raise ZeroDivisionError before any phase
runs.  Otherwise: phase 1 collects ids sequentially (batch size 1) with every
per-player failure swallowed; phase 2 filters the ids through the Match Store,
outside any handler; phase 3 fetches details sequentially (batch size 1) with
every per-id failure swallowed; phase 4 upserts the collected matches, outside
any handler, and its count is returned. -/
def gather_matches (store : StoreEnv) (api : ApiEnv)
    (iso_to_timestamp_s : String → Except PyError Int)
    (platform start_time end_time : String) (target_num_matches : Nat)
    (players : List String) (rank : Rank) (st : GatherState) :
    Except PyError (GatherState × Nat) :=
  if players.length = 0 then
    .error .zeroDivisionError
  else
    let mpp := matches_per_player target_num_matches players.length
    let phase1 := fetch_all store api iso_to_timestamp_s platform start_time end_time
      mpp players (st.progress, [])
    match store.db_get_only_new st.matchdb phase1.2 with
    | .error e => .error e
    | .ok new_match_ids =>
      let collected := new_match_ids.foldl (fetch_match_details api platform rank) []
      match store.db_upsert_many st.matchdb collected with
      | .error e => .error e
      | .ok (db, count) => .ok (⟨phase1.1, db⟩, count)

/-!  League Query Loop: query_matches of src/data/match_generation.py lines
13-39.  The league-roster endpoint is an external collaborator (spec section
6), so it is an oracle that may raise; in the repository as written it always
would, since the call site api.get_league names a method RiotAPI never defines
(riot_api.py offers only get_league_entries and the per-tier league methods),
so the real collaborator raises AttributeError on every roster fetch.  The
Gatherer call inside the loop is the gather_matches embedding of this file,
with its error paths intact: the loop body has no handler, so a raise from
either the roster fetch or the Gatherer propagates out of query_matches. -/

/-- MAX_PAGE_INDEX (match_generation.py line 24). -/
def MAX_PAGE_INDEX : Nat := 10

/-- MAX_ITERATIONS (match_generation.py line 25). -/
def MAX_ITERATIONS : Nat := 10

/-- The apex-tier test rank in [Rank.CHALLENGER, Rank.GRANDMASTER, Rank.MASTER]
(match_generation.py line 30). -/
def isApexRank (rank : Rank) : Bool :=
  rank == .CHALLENGER || rank == .GRANDMASTER || rank == .MASTER

/-- The league-roster oracle consumed by query_matches: the players of the
roster fetched for a rank (page is none for apex tiers, which take the whole
single-page league).  It may raise, like any collaborator call; the repository
call site api.get_league would in fact always raise AttributeError because
RiotAPI defines no such method. -/
structure QueryEnv where
  get_league_players : Rank → Option Nat → Except PyError (List String)

/-- The while-loop of query_matches.  The fuel argument is the number of
iterations the cap still allows, MAX_ITERATIONS - iterations, so the loop
guard iterations < MAX_ITERATIONS is fuel not being zero; processed_matches,
the page index rank_page_start_index, the count of Gatherer calls made so far
and the shared store state are threaded explicitly.  Each pass fetches a
roster (whole league for apex ranks, page rank_page_start_index otherwise,
after which the page advances modulo MAX_PAGE_INDEX) and calls gather_matches
with it, adding the returned count to processed_matches; the body has no
handler, so an error from the roster fetch or from gather_matches propagates.
The first result component is the outcome (processed_matches and final state,
or the propagated error); the second and third are instrumentation: how many
Gatherer calls were made, and the counts the completed Gatherer calls
returned, newest last in execution order. -/
def query_matches_loop (store : StoreEnv) (api : ApiEnv)
    (iso_to_timestamp_s : String → Except PyError Int) (env : QueryEnv)
    (platform start_time end_time : String) (rank : Rank) (num_matches : Nat) :
    Nat → Nat → Nat → Nat → GatherState →
    Except PyError (Nat × GatherState) × Nat × List Nat
  | 0, processed, _page, calls, st => (.ok (processed, st), calls, [])
  | fuel + 1, processed, page, calls, st =>
    if processed < num_matches then
      match env.get_league_players rank (if isApexRank rank then none else some page) with
      | .error e => (.error e, calls, [])
      | .ok players =>
        match gather_matches store api iso_to_timestamp_s platform start_time end_time
            num_matches players rank st with
        | .error e => (.error e, calls + 1, [])
        | .ok (st', count) =>
          let r := query_matches_loop store api iso_to_timestamp_s env platform
            start_time end_time rank num_matches fuel (processed + count)
            (if isApexRank rank then page else (page + 1) % MAX_PAGE_INDEX)
            (calls + 1) st'
          (r.1, r.2.1, count :: r.2.2)
    else (.ok (processed, st), calls, [])

/-- query_matches (match_generation.py lines 13-39): run the loop from
processed_matches = 0, iterations = 0 (fuel MAX_ITERATIONS) and
rank_page_start_index = 1 over the given store state, returning
processed_matches (or the propagated error); the trailing components count the
Gatherer calls made and record their returned counts. -/
def query_matches (store : StoreEnv) (api : ApiEnv)
    (iso_to_timestamp_s : String → Except PyError Int) (env : QueryEnv)
    (platform start_time end_time : String) (rank : Rank) (num_matches : Nat)
    (st : GatherState) : Except PyError (Nat × GatherState) × Nat × List Nat :=
  query_matches_loop store api iso_to_timestamp_s env platform start_time end_time
    rank num_matches MAX_ITERATIONS 0 1 0 st

/-- A roster oracle whose every page is an empty league: League payloads with
an empty entries list parse into a League whose players list is empty, so this
is a behaviour the real collaborator can produce. -/
def leagueEmptyEnv : QueryEnv where
  get_league_players := fun _ _ => .ok []

/-- SELECT by primary key from the matches table. -/
def findMatchRow (db : MatchDB) (id : String) : Option MatchesRow :=
  db.matchesTable.find? (fun x => x.match_id == id)

/-- A concrete matches-table row with id M1 used by the witnesses. -/
def m1row : MatchesRow :=
  ⟨"M1", .num 1, .num 2, .num 3, .str "CLASSIC", .num 4, .str "MATCHED_GAME", .str "15.20"⟩

/-- A database already holding match M1. -/
def db1 : MatchDB := ⟨[m1row], []⟩

/-- A Match value that reuses id M1 with different metadata. -/
def m1dup : Match :=
  ⟨.str "M1", .num 9, .num 9, .num 9, .str "ARAM", .num 9, .str "OTHER", .str "16.1", []⟩

/-- An API oracle whose id listing always returns the two ids m1 and m2. -/
def apiTwoIds : ApiEnv where
  get_match_ids_by_puuid := fun _ _ _ _ _ _ => .ok ["m1", "m2"]
  get_match := fun _ _ => .error (.requestError "not used")

/-- An API oracle for which every request raises, as when the network is down. -/
def apiUnreachable : ApiEnv where
  get_match_ids_by_puuid := fun _ _ _ _ _ _ => .error (.requestError "unreachable")
  get_match := fun _ _ => .error (.requestError "unreachable")

/-- A time-conversion oracle that always succeeds with epoch 0. -/
def isoZero : String → Except PyError Int := fun _ => .ok 0

/-- A store whose novelty filter (Match Store read) always raises. -/
def failGetOnlyNewEnv (e : PyError) : StoreEnv :=
  { duckdbStoreEnv with db_get_only_new := fun _ _ => .error e }

/-- A store whose upsert (Match Store write) always raises. -/
def failUpsertEnv (e : PyError) : StoreEnv :=
  { duckdbStoreEnv with db_upsert_many := fun _ _ => .error e }

/-- A store whose Progress Store read and write always raise; the Match Store
side stays the DuckDB embedding. -/
def failProgressEnv (e : PyError) : StoreEnv :=
  { duckdbStoreEnv with
    progress_get := fun _ _ => .error e,
    progress_set := fun _ _ _ => .error e }

/-- An API oracle for the C4 witness: the id listing fails for player p2 and
returns m1 for p1 and m3 for any other player. -/
def apiC4 : ApiEnv where
  get_match_ids_by_puuid := fun p _ _ _ _ _ =>
    if p = "p2" then .error (.requestError "boom")
    else if p = "p1" then .ok ["m1"] else .ok ["m3"]
  get_match := fun _ _ => .error (.requestError "not used")

/-- The per-player id lists the C4 witness expects. -/
def idsOfC4 : String → List String := fun p => if p = "p1" then ["m1"] else ["m3"]

/-- A full match payload whose participants list is empty: metadata.matchId and
every info field required by Match.from_json are present. -/
def emptyParticipantsPayload : Json :=
  .obj [("metadata", .obj [("matchId", .str "NA1_1")]),
        ("info", .obj [("gameCreation", .num 1), ("gameDuration", .num 2),
          ("gameEndTimestamp", .num 3), ("gameMode", .str "CLASSIC"),
          ("gameStartTimestamp", .num 4), ("gameType", .str "MATCHED_GAME"),
          ("gameVersion", .str "15.20"), ("participants", .arr [])])]

/-- An API oracle whose match-detail endpoint returns emptyParticipantsPayload
for every id. -/
def apiEmptyParticipants : ApiEnv where
  get_match_ids_by_puuid := fun _ _ _ _ _ _ => .ok []
  get_match := fun _ _ => .ok emptyParticipantsPayload

/-- The participant object of the repository test fixture MATCH_RESPONSE
(src/data/tests/test_riot_api.py lines 20-29). -/
def testParticipantPayload : Json :=
  .obj [("puuid", .str "PKDb1Hr2KqfmEKLuPeq6rA"), ("championName", .str "Camille"),
        ("individualPosition", .str "TOP"), ("teamPosition", .str "TOP"),
        ("teamId", .num 100), ("win", .bool false)]

/-- A second participant-free match payload, with id NA1_2, for the C10
counterexample. -/
def emptyParticipantsPayload2 : Json :=
  .obj [("metadata", .obj [("matchId", .str "NA1_2")]),
        ("info", .obj [("gameCreation", .num 10), ("gameDuration", .num 20),
          ("gameEndTimestamp", .num 30), ("gameMode", .str "CLASSIC"),
          ("gameStartTimestamp", .num 40), ("gameType", .str "MATCHED_GAME"),
          ("gameVersion", .str "15.21"), ("participants", .arr [])])]

/-- The Match value that Match.from_json produces for
emptyParticipantsPayload2. -/
def parsedEmptyMatch : Match :=
  ⟨.str "NA1_2", .num 10, .num 20, .num 30, .str "CLASSIC", .num 40,
   .str "MATCHED_GAME", .str "15.21", []⟩

/-- The champion fallback of MatchParticipant.from_json can resolve a champion:
either a truthy championName is present or championId subscripting succeeds. -/
def championResolvable (payload : Json) : Bool :=
  (match payload.pyGet "championName" with
   | .ok v => v.truthy
   | .error _ => false)
  || (payload.subscript "championId").isOkE

/-- A participant payload is well formed for MatchParticipant.from_json when
every field the constructor call evaluates is available: puuid, a resolvable
champion, individualPosition, teamPosition and teamId. -/
def wellFormedParticipantPayload (payload : Json) : Bool :=
  (payload.subscript "puuid").isOkE
  && championResolvable payload
  && (payload.subscript "individualPosition").isOkE
  && (payload.subscript "teamPosition").isOkE
  && (payload.subscript "teamId").isOkE

/-!  Theorems.  Each claim of the specification is settled by one theorem below,
preceded by helper lemmas shared across claims. -/

/-- Exact natural ceiling division agrees with the rational ceiling, lower
bound half: t is at most n times the rounded-up quotient. -/
lemma le_mul_div_add (t n : Nat) (hn : 0 < n) : t ≤ n * ((t + n - 1) / n) := by
  have hdm := Nat.div_add_mod (t + n - 1) n
  have hmod : (t + n - 1) % n < n := Nat.mod_lt _ hn
  generalize hX : n * ((t + n - 1) / n) = X at hdm ⊢
  generalize hR : (t + n - 1) % n = R at hdm hmod
  omega

/-- The rounded-up natural quotient (t + n - 1) / n used by matches_per_player
is the ceiling of the exact rational quotient t / n. -/
lemma div_up_eq_ceil (t n : Nat) (hn : 0 < n) :
    (t + n - 1) / n = ⌈(t : ℚ) / (n : ℚ)⌉₊ := by
  have hnQ : (0 : ℚ) < (n : ℚ) := by exact_mod_cast hn
  apply le_antisymm
  · rw [Nat.div_le_iff_le_mul_add_pred hn]
    have h1 : (t : ℚ) / (n : ℚ) ≤ (⌈(t : ℚ) / (n : ℚ)⌉₊ : ℚ) := Nat.le_ceil _
    rw [div_le_iff hnQ] at h1
    have h2 : t ≤ ⌈(t : ℚ) / (n : ℚ)⌉₊ * n := by exact_mod_cast h1
    rw [mul_comm] at h2
    generalize hY : n * ⌈(t : ℚ) / (n : ℚ)⌉₊ = Y at h2 ⊢
    omega
  · rw [Nat.ceil_le, div_le_iff hnQ]
    have h2 := le_mul_div_add t n hn
    rw [mul_comm] at h2
    exact_mod_cast h2

/-- C1: for every non-empty players list and every target count, the
matches_per_player value computed by gather_matches (match_generation.py line
55) is the maximum of the ceiling of target_count over the roster size and the
floor value 2; hence it is always at least 2, and for a roster of two players
with target 10 it is 5. -/
theorem matches_per_player_spec (target_count : Nat) (players : List String)
    (h : players ≠ []) :
    matches_per_player target_count players.length
        = max ⌈(target_count : ℚ) / (players.length : ℚ)⌉₊ 2
    ∧ 2 ≤ matches_per_player target_count players.length
    ∧ matches_per_player 10 2 = 5 := by
  have hn : 0 < players.length := List.length_pos.mpr h
  refine ⟨?_, le_max_right _ _, by decide⟩
  unfold matches_per_player
  rw [div_up_eq_ceil _ _ hn]

/-- Witness for C1 at the spec scenario: two players, target 10, value 5. -/
theorem matches_per_player_spec_witness :
    matches_per_player 10 (["p1", "p2"] : List String).length = 5
    ∧ 2 ≤ matches_per_player 10 (["p1", "p2"] : List String).length := by
  have h := matches_per_player_spec 10 ["p1", "p2"] (by decide)
  exact ⟨h.2.2, h.2.1⟩

/-- Invariant of the query_matches while-loop: the number of Gatherer calls
grows by at most the remaining fuel, and a normal exit advances
processed_matches by exactly the sum of the counts the Gatherer calls
returned, one recorded count per call. -/
lemma query_matches_loop_spec (store : StoreEnv) (api : ApiEnv)
    (iso : String → Except PyError Int) (env : QueryEnv)
    (platform stt ent : String) (rank : Rank) (target : Nat) :
    ∀ fuel processed page calls st,
      calls ≤ (query_matches_loop store api iso env platform stt ent rank target
          fuel processed page calls st).2.1
      ∧ (query_matches_loop store api iso env platform stt ent rank target
          fuel processed page calls st).2.1 ≤ calls + fuel
      ∧ ∀ p st2,
          (query_matches_loop store api iso env platform stt ent rank target
              fuel processed page calls st).1 = .ok (p, st2) →
            p = processed + (query_matches_loop store api iso env platform stt ent rank
                target fuel processed page calls st).2.2.sum
            ∧ (query_matches_loop store api iso env platform stt ent rank target
                fuel processed page calls st).2.1
              = calls + (query_matches_loop store api iso env platform stt ent rank
                  target fuel processed page calls st).2.2.length := by
  intro fuel
  induction fuel with
  | zero =>
    intro processed page calls st
    simp only [query_matches_loop]
    refine ⟨le_refl _, by omega, ?_⟩
    intro p st2 hok
    cases hok
    simp
  | succ fuel ih =>
    intro processed page calls st
    by_cases hlt : processed < target
    · cases hl : env.get_league_players rank (if isApexRank rank then none else some page) with
      | error e =>
        have hstep : query_matches_loop store api iso env platform stt ent rank target
            (fuel + 1) processed page calls st = (.error e, calls, []) := by
          simp [query_matches_loop, hlt, hl]
        rw [hstep]
        refine ⟨le_refl _, by show calls ≤ calls + (fuel + 1); omega, ?_⟩
        intro p st2 hok
        exact Except.noConfusion hok
      | ok players =>
        cases hg : gather_matches store api iso platform stt ent target players rank st with
        | error e =>
          have hstep : query_matches_loop store api iso env platform stt ent rank target
              (fuel + 1) processed page calls st = (.error e, calls + 1, []) := by
            simp [query_matches_loop, hlt, hl, hg]
          rw [hstep]
          refine ⟨by show calls ≤ calls + 1; omega,
            by show calls + 1 ≤ calls + (fuel + 1); omega, ?_⟩
          intro p st2 hok
          exact Except.noConfusion hok
        | ok r =>
          obtain ⟨st2, count⟩ := r
          obtain ⟨h1, h2, h3⟩ := ih (processed + count)
            (if isApexRank rank then page else (page + 1) % MAX_PAGE_INDEX) (calls + 1) st2
          have e1 : (query_matches_loop store api iso env platform stt ent rank target
              (fuel + 1) processed page calls st).1
              = (query_matches_loop store api iso env platform stt ent rank target fuel
                  (processed + count)
                  (if isApexRank rank then page else (page + 1) % MAX_PAGE_INDEX)
                  (calls + 1) st2).1 := by
            simp [query_matches_loop, hlt, hl, hg]
          have e2 : (query_matches_loop store api iso env platform stt ent rank target
              (fuel + 1) processed page calls st).2.1
              = (query_matches_loop store api iso env platform stt ent rank target fuel
                  (processed + count)
                  (if isApexRank rank then page else (page + 1) % MAX_PAGE_INDEX)
                  (calls + 1) st2).2.1 := by
            simp [query_matches_loop, hlt, hl, hg]
          have e3 : (query_matches_loop store api iso env platform stt ent rank target
              (fuel + 1) processed page calls st).2.2
              = count :: (query_matches_loop store api iso env platform stt ent rank
                  target fuel (processed + count)
                  (if isApexRank rank then page else (page + 1) % MAX_PAGE_INDEX)
                  (calls + 1) st2).2.2 := by
            simp [query_matches_loop, hlt, hl, hg]
          rw [e1, e2, e3]
          refine ⟨by omega, by omega, ?_⟩
          intro p st3 hok
          obtain ⟨hp, hc⟩ := h3 p st3 hok
          rw [List.sum_cons, List.length_cons]
          exact ⟨by omega, by omega⟩
    · have hstep : query_matches_loop store api iso env platform stt ent rank target
          (fuel + 1) processed page calls st = (.ok (processed, st), calls, []) := by
        simp [query_matches_loop, hlt]
      rw [hstep]
      refine ⟨le_refl _, by show calls ≤ calls + (fuel + 1); omega, ?_⟩
      intro p st2 hok
      cases hok
      simp

/-- C9 (corrected): for every store, API oracle, roster oracle, rank, time
window and target count, query_matches makes at most MAX_ITERATIONS = 10
Gatherer calls no matter how little progress each call makes, and the loop
always terminates; whenever every roster fetch and Gatherer call returns
normally, the run returns the accumulated processed count — exactly the sum
of the counts its Gatherer calls returned, one per call — which may be below
the target.  When a roster fetch or a Gatherer call raises, the error
propagates out of query_matches instead (see the counterexample). -/
theorem query_matches_call_bound (store : StoreEnv) (api : ApiEnv)
    (iso : String → Except PyError Int) (env : QueryEnv)
    (platform stt ent : String) (rank : Rank) (target : Nat) (st : GatherState) :
    (query_matches store api iso env platform stt ent rank target st).2.1
        ≤ MAX_ITERATIONS
    ∧ ∀ p st2,
        (query_matches store api iso env platform stt ent rank target st).1
            = .ok (p, st2) →
          p = (query_matches store api iso env platform stt ent rank target st).2.2.sum
          ∧ (query_matches store api iso env platform stt ent rank target st).2.1
            = (query_matches store api iso env platform stt ent rank target st).2.2.length := by
  obtain ⟨h1, h2, h3⟩ := query_matches_loop_spec store api iso env platform stt ent rank
    target MAX_ITERATIONS 0 1 0 st
  have e : query_matches store api iso env platform stt ent rank target st
      = query_matches_loop store api iso env platform stt ent rank target
          MAX_ITERATIONS 0 1 0 st := rfl
  rw [e]
  refine ⟨by omega, ?_⟩
  intro p st2 hok
  obtain ⟨hp, hc⟩ := h3 p st2 hok
  exact ⟨by omega, by omega⟩

/-- Witness for C9 at the spec scenario: rank CHALLENGER with target 0 exits
the loop at once, makes no Gatherer call, and returns 0, the sum of the empty
list of call results. -/
theorem query_matches_call_bound_witness :
    (query_matches duckdbStoreEnv apiUnreachable isoZero leagueEmptyEnv "NA1" "s" "e"
        .CHALLENGER 0 ⟨[], ⟨[], []⟩⟩).2.1 ≤ MAX_ITERATIONS
    ∧ 0 = (query_matches duckdbStoreEnv apiUnreachable isoZero leagueEmptyEnv "NA1" "s"
        "e" .CHALLENGER 0 ⟨[], ⟨[], []⟩⟩).2.2.sum := by
  have h := query_matches_call_bound duckdbStoreEnv apiUnreachable isoZero leagueEmptyEnv
    "NA1" "s" "e" .CHALLENGER 0 ⟨[], ⟨[], []⟩⟩
  exact ⟨h.1, (h.2 0 ⟨[], ⟨[], []⟩⟩ rfl).1⟩

/-- Counterexample to C9 as stated: with a roster oracle that returns an empty
league page (a league payload with an empty entries list parses to an empty
players list, so the real collaborator can produce it), the first Gatherer
call receives an empty roster and raises ZeroDivisionError, which the loop
body does not catch: one Gatherer call is made and the run propagates the
error out of query_matches instead of terminating with an accumulated
processed count. -/
theorem query_matches_raise_cx :
    (query_matches duckdbStoreEnv apiUnreachable isoZero leagueEmptyEnv "NA1" "s" "e"
        .CHALLENGER 5 ⟨[], ⟨[], []⟩⟩).1 = .error .zeroDivisionError
    ∧ (query_matches duckdbStoreEnv apiUnreachable isoZero leagueEmptyEnv "NA1" "s" "e"
        .CHALLENGER 5 ⟨[], ⟨[], []⟩⟩).2.1 = 1 :=
  ⟨rfl, rfl⟩

/-- A row found before an ON CONFLICT DO NOTHING insert is still found,
unchanged, afterwards. -/
lemma find_insertMatchRow (rows : List MatchesRow) (x : MatchesRow) (id : String)
    (r : MatchesRow) (h : rows.find? (fun y => y.match_id == id) = some r) :
    (insertMatchRow rows x).find? (fun y => y.match_id == id) = some r := by
  unfold insertMatchRow
  split
  · exact h
  · rw [List.find?_append, h]
    rfl

/-- upsert_match leaves every existing matches-table row in place. -/
lemma find_upsert_match (db : MatchDB) (m : Match) (id : String) (r : MatchesRow)
    (h : findMatchRow db id = some r) :
    findMatchRow (upsert_match db m) id = some r := by
  unfold findMatchRow upsert_match at *
  exact find_insertMatchRow _ _ _ _ h

/-- Invariant of the upsert_many fold: the counter advances once per match and
existing matches-table rows survive untouched. -/
lemma upsert_many_fold_spec (ms : List Match) :
    ∀ acc : MatchDB × Nat,
      (ms.foldl (fun acc m => (upsert_match acc.1 m, acc.2 + 1)) acc).2
          = acc.2 + ms.length
      ∧ ∀ id r, findMatchRow acc.1 id = some r →
          findMatchRow (ms.foldl (fun acc m => (upsert_match acc.1 m, acc.2 + 1)) acc).1 id
            = some r := by
  induction ms with
  | nil =>
    intro acc
    simp
  | cons m ms ih =>
    intro acc
    obtain ⟨h1, h2⟩ := ih (upsert_match acc.1 m, acc.2 + 1)
    constructor
    · simp only [List.foldl_cons, List.length_cons]
      rw [h1]
      omega
    · intro id r hr
      simp only [List.foldl_cons]
      exact h2 id r (find_upsert_match acc.1 m id r hr)

/-- C5: upsert_matches (MatchDatabase.upsert_many) returns the number of
matches iterated in the call, the length of its input sequence, not the number
newly inserted; and a match whose id is already present leaves the stored
matches row untouched (first write wins) with no error raised (the embedded
operation is total). -/
theorem upsert_many_processed_count (db : MatchDB) (ms : List Match) :
    (upsert_many db ms).2 = ms.length
    ∧ ∀ id r, findMatchRow db id = some r →
        findMatchRow (upsert_many db ms).1 id = some r := by
  obtain ⟨h1, h2⟩ := upsert_many_fold_spec ms (db, 0)
  exact ⟨by simpa [upsert_many] using h1, fun id r hr => h2 id r hr⟩

/-- Witness for C5: upserting a duplicate of M1 reports one processed match
and the stored M1 row is unchanged. -/
theorem upsert_many_processed_count_witness :
    (upsert_many db1 [m1dup]).2 = 1
    ∧ findMatchRow (upsert_many db1 [m1dup]).1 "M1" = some m1row := by
  refine ⟨(upsert_many_processed_count db1 [m1dup]).1, ?_⟩
  exact (upsert_many_processed_count db1 [m1dup]).2 "M1" m1row rfl

/-- C6: filter_unseen (MatchDatabase.get_only_new_match_ids) returns exactly
the candidate ids that are not present as primary keys of the matches table,
and the empty candidate set returns the empty set having executed zero SELECT
queries. -/
theorem get_only_new_spec (db : MatchDB) (ids : List String) :
    (∀ x, x ∈ (get_only_new_match_ids db ids).1 ↔
        x ∈ ids ∧ ¬ ∃ r ∈ db.matchesTable, r.match_id = x)
    ∧ get_only_new_match_ids db [] = ([], 0) := by
  refine ⟨?_, rfl⟩
  intro x
  unfold get_only_new_match_ids
  by_cases h : ids.isEmpty
  · have : ids = [] := List.isEmpty_iff.mp h
    subst this
    simp
  · rw [if_neg h, List.mem_filter]
    simp [List.any_eq_true, beq_iff_eq]

/-- Witness for C6 at the spec scenario: the store holds M1, the candidates
are M1 and M2, and exactly M2 is reported new. -/
theorem get_only_new_spec_witness :
    "M2" ∈ (get_only_new_match_ids db1 ["M1", "M2"]).1
    ∧ "M1" ∉ (get_only_new_match_ids db1 ["M1", "M2"]).1 := by
  constructor
  · apply ((get_only_new_spec db1 ["M1", "M2"]).1 "M2").mpr
    refine ⟨by simp, ?_⟩
    rintro ⟨r, hr, he⟩
    have hrm : r = m1row := by simpa [db1] using hr
    subst hrm
    simp [m1row] at he
  · intro hmem
    have h2 := (((get_only_new_spec db1 ["M1", "M2"]).1 "M1").mp hmem).2
    exact h2 ⟨m1row, by simp [db1], rfl⟩

/-- Read-your-write for the progress upsert: after update_start_index the same
context reads back the written offset. -/
lemma get_update_start_index (db : List (Ctx × Nat)) (c : Ctx) (n : Nat) :
    get_query_start_index (update_start_index db c n) c = n := by
  induction db with
  | nil => simp [update_start_index, get_query_start_index]
  | cons row rest ih =>
    by_cases h : row.1 = c
    · simp [update_start_index, get_query_start_index, h]
    · simp [update_start_index, get_query_start_index, h, ih]

/-- C7: when the phase-1 id fetch of gather_matches succeeds for a player with
stored offset s and returns k ids (k = 0 included), the per-player task
immediately advances the Progress Store offset for the (platform, start_time,
end_time, player) context to s + k. -/
theorem fetch_for_player_advances_offset (api : ApiEnv)
    (iso : String → Except PyError Int)
    (platform start_time end_time : String) (mpp : Nat)
    (pdb : List (Ctx × Nat)) (acc : List String) (puuid : String)
    (a b : Int) (region : String) (ids : List String)
    (hiso1 : iso start_time = .ok a) (hiso2 : iso end_time = .ok b)
    (hreg : platformRegion platform = .ok region)
    (hids : api.get_match_ids_by_puuid puuid region a b
        (get_query_start_index pdb ⟨platform, start_time, end_time, puuid⟩) mpp
        = .ok ids) :
    get_query_start_index
        (fetch_for_player duckdbStoreEnv api iso platform start_time end_time mpp
          (pdb, acc) puuid).1
        ⟨platform, start_time, end_time, puuid⟩
      = get_query_start_index pdb ⟨platform, start_time, end_time, puuid⟩
          + ids.length := by
  unfold fetch_for_player
  simp only [duckdbStoreEnv, hiso1, hiso2, hreg, hids]
  exact get_update_start_index _ _ _

/-- Witness for C7: from an empty progress store (offset 0) a fetch returning
two ids leaves the stored offset at 2. -/
theorem fetch_for_player_advances_offset_witness :
    get_query_start_index
        (fetch_for_player duckdbStoreEnv apiTwoIds (fun _ => .ok 0) "NA1" "s" "e" 5
          ([], []) "p1").1
        ⟨"NA1", "s", "e", "p1"⟩ = 2 := by
  have h := fetch_for_player_advances_offset apiTwoIds (fun _ => .ok 0) "NA1" "s" "e" 5
    [] [] "p1" 0 0 "americas" ["m1", "m2"] rfl rfl rfl rfl
  exact h

/-- With a raising Progress Store every per-player task leaves the phase-1
state untouched, because the read is the first statement inside the per-player
try block. -/
lemma fetch_all_failProgress (e : PyError) (api : ApiEnv)
    (iso : String → Except PyError Int) (platform stt ent : String) (mpp : Nat) :
    ∀ (players : List String) (init : List (Ctx × Nat) × List String),
      fetch_all (failProgressEnv e) api iso platform stt ent mpp players init = init := by
  intro players
  induction players with
  | nil => intro init; rfl
  | cons p ps ih =>
    intro init
    calc fetch_all (failProgressEnv e) api iso platform stt ent mpp (p :: ps) init
        = fetch_all (failProgressEnv e) api iso platform stt ent mpp ps
            (fetch_for_player (failProgressEnv e) api iso platform stt ent mpp init p) := rfl
      _ = fetch_all (failProgressEnv e) api iso platform stt ent mpp ps init := by rw [show
            fetch_for_player (failProgressEnv e) api iso platform stt ent mpp init p = init
            from rfl]
      _ = init := ih init

/-- With the DuckDB-backed stores, gather_matches on a non-empty roster always
returns normally, whatever the API oracles do: every per-item failure is
swallowed inside the phase tasks and the store operations are total. -/
lemma gather_duckdb_ok (api : ApiEnv) (iso : String → Except PyError Int)
    (platform stt ent : String) (target : Nat) (players : List String)
    (rank : Rank) (st : GatherState) (h : players ≠ []) :
    ∃ res, gather_matches duckdbStoreEnv api iso platform stt ent target players rank st
      = .ok res := by
  have hlen : ¬ players.length = 0 := by simpa [List.length_eq_zero] using h
  unfold gather_matches
  rw [if_neg hlen]
  exact ⟨_, rfl⟩

/-- C3 (corrected): a Match Store failure is not recovered by the Gatherer and
propagates out of gather_matches, whether it hits the phase-2 novelty filter or
the phase-4 upsert; a Progress Store failure, however, happens inside the
per-player try block of phase 1 and is swallowed like a per-item fetch error,
leaving gather_matches to finish normally with zero collected matches. -/
theorem store_failure_handling (api : ApiEnv) (iso : String → Except PyError Int)
    (platform stt ent : String) (target : Nat) (players : List String)
    (rank : Rank) (st : GatherState) (e : PyError) (h : players ≠ []) :
    gather_matches (failGetOnlyNewEnv e) api iso platform stt ent target players rank st
        = .error e
    ∧ gather_matches (failUpsertEnv e) api iso platform stt ent target players rank st
        = .error e
    ∧ gather_matches (failProgressEnv e) api iso platform stt ent target players rank st
        = .ok (⟨st.progress, st.matchdb⟩, 0) := by
  have hlen : ¬ players.length = 0 := by simpa [List.length_eq_zero] using h
  refine ⟨?_, ?_, ?_⟩
  · unfold gather_matches
    rw [if_neg hlen]
    rfl
  · unfold gather_matches
    rw [if_neg hlen]
    rfl
  · unfold gather_matches
    rw [if_neg hlen]
    simp only []
    rw [fetch_all_failProgress]
    rfl

/-- Witness for C3 at a concrete run with one player and empty stores. -/
theorem store_failure_handling_witness :
    gather_matches (failGetOnlyNewEnv (.valueError "store down")) apiUnreachable isoZero
        "NA1" "s" "e" 5 ["p1"] .CHALLENGER ⟨[], ⟨[], []⟩⟩
        = .error (.valueError "store down")
    ∧ gather_matches (failUpsertEnv (.valueError "store down")) apiUnreachable isoZero
        "NA1" "s" "e" 5 ["p1"] .CHALLENGER ⟨[], ⟨[], []⟩⟩
        = .error (.valueError "store down") := by
  have h := store_failure_handling apiUnreachable isoZero "NA1" "s" "e" 5 ["p1"]
    .CHALLENGER ⟨[], ⟨[], []⟩⟩ (.valueError "store down") (by decide)
  exact ⟨h.1, h.2.1⟩

/-- Counterexample to C3 as stated: a Progress Store whose read and write
always raise does not make gather_matches propagate; the run on one player
returns ok with count 0, so a Progress Store failure is swallowed, not
propagated. -/
theorem progress_store_failure_swallowed_cx :
    gather_matches (failProgressEnv (.valueError "progress store down")) apiUnreachable
        isoZero "NA1" "s" "e" 5 ["p1"] .CHALLENGER ⟨[], ⟨[], []⟩⟩
      = .ok (⟨[], ⟨[], []⟩⟩, 0) := by
  have h := store_failure_handling apiUnreachable isoZero "NA1" "s" "e" 5 ["p1"]
    .CHALLENGER ⟨[], ⟨[], []⟩⟩ (.valueError "progress store down") (by decide)
  exact h.2.2

/-- C8 (corrected): calling gather_matches with an empty players list raises
immediately, before any phase runs, through the ZeroDivisionError of the
matches_per_player computation; and with functioning (DuckDB-backed) stores
this structural violation is the only failure gather_matches raises, since
every per-item fetch or parse failure is swallowed and a non-empty roster
returns ok for every API behaviour.  Store failures are a second, independent
way to raise (see the Match Store counterexample), so the structural violation
is not the only failure kind in general. -/
theorem gather_empty_players_raises (store : StoreEnv) (api : ApiEnv)
    (iso : String → Except PyError Int) (platform stt ent : String)
    (target : Nat) (players : List String) (rank : Rank) (st : GatherState)
    (h : players ≠ []) :
    gather_matches store api iso platform stt ent target [] rank st
        = .error .zeroDivisionError
    ∧ ∃ res, gather_matches duckdbStoreEnv api iso platform stt ent target players rank st
        = .ok res :=
  ⟨rfl, gather_duckdb_ok api iso platform stt ent target players rank st h⟩

/-- Witness for C8: one unreachable-network player still yields a normal run
with the DuckDB stores, while the empty roster raises ZeroDivisionError. -/
theorem gather_empty_players_raises_witness :
    gather_matches duckdbStoreEnv apiUnreachable isoZero "NA1" "s" "e" 5 [] .CHALLENGER
        ⟨[], ⟨[], []⟩⟩ = .error .zeroDivisionError
    ∧ ∃ res, gather_matches duckdbStoreEnv apiUnreachable isoZero "NA1" "s" "e" 5 ["p1"]
        .CHALLENGER ⟨[], ⟨[], []⟩⟩ = .ok res := by
  have h := gather_empty_players_raises duckdbStoreEnv apiUnreachable isoZero "NA1" "s" "e"
    5 ["p1"] .CHALLENGER ⟨[], ⟨[], []⟩⟩ (by decide)
  exact ⟨h.1, h.2⟩

/-- Counterexample to C8 as stated: the structural contract violation is not
the only failure gather_matches can raise for; a Match Store write failure on a
non-empty roster propagates a ValueError that is not the division-by-zero
error. -/
theorem gather_nonstructural_raise_cx :
    gather_matches (failUpsertEnv (.valueError "match store down")) apiUnreachable isoZero
        "NA1" "s" "e" 0 ["p1"] .CHALLENGER ⟨[], ⟨[], []⟩⟩
      = .error (.valueError "match store down")
    ∧ PyError.valueError "match store down" ≠ PyError.zeroDivisionError := by
  exact ⟨rfl, by decide⟩

/-- Membership in the accumulated id set after a Python set.update: exactly the
old elements and the added ids. -/
lemma mem_setUpdate (ids : List String) :
    ∀ (s : List String) (x : String), x ∈ setUpdate s ids ↔ x ∈ s ∨ x ∈ ids := by
  induction ids with
  | nil => intro s x; simp [setUpdate]
  | cons i l ih =>
    intro s x
    rw [show setUpdate s (i :: l) = setUpdate (if i ∈ s then s else s ++ [i]) l from rfl]
    by_cases h : i ∈ s
    · rw [if_pos h, ih]
      simp only [List.mem_cons]
      constructor
      · rintro (h1 | h2)
        · exact Or.inl h1
        · exact Or.inr (Or.inr h2)
      · rintro (h1 | h2 | h3)
        · exact Or.inl h1
        · exact Or.inl (by rw [h2]; exact h)
        · exact Or.inr h3
    · rw [if_neg h, ih]
      simp only [List.mem_append, List.mem_cons, List.mem_singleton]
      tauto

/-- A phase-1 task whose id request raises leaves the shared state exactly as
it was: the progress write and the id-set update both sit after the raise
inside the try block. -/
lemma fetch_for_player_api_error (api : ApiEnv) (iso : String → Except PyError Int)
    (platform stt ent : String) (mpp : Nat) (st : List (Ctx × Nat) × List String)
    (q : String) (a b : Int) (region : String)
    (hiso1 : iso stt = .ok a) (hiso2 : iso ent = .ok b)
    (hreg : platformRegion platform = .ok region)
    (hfail : ∀ r s t u v, ∃ er, api.get_match_ids_by_puuid q r s t u v = .error er) :
    fetch_for_player duckdbStoreEnv api iso platform stt ent mpp st q = st := by
  obtain ⟨er, he⟩ :=
    hfail region a b (get_query_start_index st.1 ⟨platform, stt, ent, q⟩) mpp
  unfold fetch_for_player
  simp only [duckdbStoreEnv, hiso1, hiso2, hreg, he]

/-- A phase-1 task whose id request returns ids advances the stored offset and
merges the ids into the shared set. -/
lemma fetch_for_player_api_ok (api : ApiEnv) (iso : String → Except PyError Int)
    (platform stt ent : String) (mpp : Nat) (st : List (Ctx × Nat) × List String)
    (p : String) (ids : List String) (a b : Int) (region : String)
    (hiso1 : iso stt = .ok a) (hiso2 : iso ent = .ok b)
    (hreg : platformRegion platform = .ok region)
    (hids : api.get_match_ids_by_puuid p region a b
        (get_query_start_index st.1 ⟨platform, stt, ent, p⟩) mpp = .ok ids) :
    fetch_for_player duckdbStoreEnv api iso platform stt ent mpp st p
      = (update_start_index st.1 ⟨platform, stt, ent, p⟩
          (get_query_start_index st.1 ⟨platform, stt, ent, p⟩ + ids.length),
         if ids.isEmpty then st.2 else setUpdate st.2 ids) := by
  unfold fetch_for_player
  simp only [duckdbStoreEnv, hiso1, hiso2, hreg, hids]

/-- Characterisation of the merged id set built by phase 1 when one player
always fails and every other player always returns a fixed id list. -/
lemma fetch_all_mem_iff (api : ApiEnv) (iso : String → Except PyError Int)
    (platform stt ent : String) (mpp : Nat)
    (q : String) (L : String → List String) (a b : Int) (region : String)
    (hiso1 : iso stt = .ok a) (hiso2 : iso ent = .ok b)
    (hreg : platformRegion platform = .ok region)
    (hfail : ∀ r s t u v, ∃ er, api.get_match_ids_by_puuid q r s t u v = .error er)
    (hok : ∀ p, p ≠ q → ∀ r s t u v, api.get_match_ids_by_puuid p r s t u v = .ok (L p)) :
    ∀ (players : List String) (init : List (Ctx × Nat) × List String) (x : String),
      x ∈ (fetch_all duckdbStoreEnv api iso platform stt ent mpp players init).2
        ↔ x ∈ init.2 ∨ ∃ p, p ∈ players ∧ p ≠ q ∧ x ∈ L p := by
  intro players
  induction players with
  | nil => intro init x; simp [fetch_all]
  | cons p ps ih =>
    intro init x
    rw [show fetch_all duckdbStoreEnv api iso platform stt ent mpp (p :: ps) init
        = fetch_all duckdbStoreEnv api iso platform stt ent mpp ps
            (fetch_for_player duckdbStoreEnv api iso platform stt ent mpp init p) from rfl]
    by_cases hp : p = q
    · subst hp
      rw [fetch_for_player_api_error api iso platform stt ent mpp init p a b region
        hiso1 hiso2 hreg hfail]
      rw [ih init x]
      constructor
      · rintro (h1 | ⟨p', hp1, hp2, hp3⟩)
        · exact Or.inl h1
        · exact Or.inr ⟨p', List.mem_cons_of_mem _ hp1, hp2, hp3⟩
      · rintro (h1 | ⟨p', hp1, hp2, hp3⟩)
        · exact Or.inl h1
        · rcases List.mem_cons.mp hp1 with h | h
          · exact absurd h hp2
          · exact Or.inr ⟨p', h, hp2, hp3⟩
    · rw [fetch_for_player_api_ok api iso platform stt ent mpp init p (L p) a b region
        hiso1 hiso2 hreg (hok p hp region a b _ mpp)]
      rw [ih _ x]
      have hmem : (x ∈ (if (L p).isEmpty then init.2 else setUpdate init.2 (L p)))
          ↔ x ∈ init.2 ∨ x ∈ L p := by
        by_cases hL : (L p).isEmpty
        · rw [if_pos hL]
          have hnil : L p = [] := List.isEmpty_iff.mp hL
          simp [hnil]
        · rw [if_neg hL]
          exact mem_setUpdate (L p) init.2 x
      rw [hmem]
      constructor
      · rintro ((h1 | h2) | ⟨p', h3, h4, h5⟩)
        · exact Or.inl h1
        · exact Or.inr ⟨p, List.mem_cons_self _ _, hp, h2⟩
        · exact Or.inr ⟨p', List.mem_cons_of_mem _ h3, h4, h5⟩
      · rintro (h1 | ⟨p', h3, h4, h5⟩)
        · exact Or.inl (Or.inl h1)
        · rcases List.mem_cons.mp h3 with h | h
          · subst h; exact Or.inl (Or.inr h5)
          · exact Or.inr ⟨p', h, h4, h5⟩

/-- C4: during phase 1 of gather_matches, a failure while fetching one player's
match ids is caught locally: it aborts neither the batch nor any other player's
fetch, gather_matches still returns normally (no such exception escapes), and
the merged id set holds exactly the ids of the players whose fetches succeeded
while the failing player contributes none. -/
theorem phase1_failure_isolation (api : ApiEnv) (iso : String → Except PyError Int)
    (platform stt ent : String) (target : Nat) (players : List String)
    (rank : Rank) (st : GatherState)
    (q : String) (L : String → List String) (a b : Int) (region : String)
    (hq : q ∈ players)
    (hfail : ∀ r s t u v, ∃ er, api.get_match_ids_by_puuid q r s t u v = .error er)
    (hok : ∀ p, p ≠ q → ∀ r s t u v, api.get_match_ids_by_puuid p r s t u v = .ok (L p))
    (hiso1 : iso stt = .ok a) (hiso2 : iso ent = .ok b)
    (hreg : platformRegion platform = .ok region) :
    (∃ res, gather_matches duckdbStoreEnv api iso platform stt ent target players rank st
        = .ok res)
    ∧ ∀ x, x ∈ (fetch_all duckdbStoreEnv api iso platform stt ent
          (matches_per_player target players.length) players (st.progress, [])).2
        ↔ ∃ p, p ∈ players ∧ p ≠ q ∧ x ∈ L p := by
  have hne : players ≠ [] := by
    intro hnil
    rw [hnil] at hq
    exact (List.not_mem_nil q) hq
  refine ⟨gather_duckdb_ok api iso platform stt ent target players rank st hne, ?_⟩
  intro x
  rw [fetch_all_mem_iff api iso platform stt ent (matches_per_player target players.length)
    q L a b region hiso1 hiso2 hreg hfail hok players (st.progress, []) x]
  simp

/-- Witness for C4 at the spec scenario: three players, the second fails, the
other two players' ids m1 and m3 are in the merged set, a never-returned id is
not, and the gather run returns ok. -/
theorem phase1_failure_isolation_witness :
    (∃ res, gather_matches duckdbStoreEnv apiC4 isoZero "NA1" "s" "e" 6
        ["p1", "p2", "p3"] .CHALLENGER ⟨[], ⟨[], []⟩⟩ = .ok res)
    ∧ "m1" ∈ (fetch_all duckdbStoreEnv apiC4 isoZero "NA1" "s" "e"
        (matches_per_player 6 (["p1", "p2", "p3"] : List String).length)
        ["p1", "p2", "p3"] (([] : List (Ctx × Nat)), ([] : List String))).2
    ∧ "m3" ∈ (fetch_all duckdbStoreEnv apiC4 isoZero "NA1" "s" "e"
        (matches_per_player 6 (["p1", "p2", "p3"] : List String).length)
        ["p1", "p2", "p3"] (([] : List (Ctx × Nat)), ([] : List String))).2
    ∧ "zz" ∉ (fetch_all duckdbStoreEnv apiC4 isoZero "NA1" "s" "e"
        (matches_per_player 6 (["p1", "p2", "p3"] : List String).length)
        ["p1", "p2", "p3"] (([] : List (Ctx × Nat)), ([] : List String))).2 := by
  have hfail : ∀ r s t u v, ∃ er,
      apiC4.get_match_ids_by_puuid "p2" r s t u v = .error er := by
    intro r s t u v
    exact ⟨.requestError "boom", rfl⟩
  have hok : ∀ p, p ≠ "p2" → ∀ r s t u v,
      apiC4.get_match_ids_by_puuid p r s t u v = .ok (idsOfC4 p) := by
    intro p hp r s t u v
    simp only [apiC4]
    rw [if_neg hp]
    unfold idsOfC4
    by_cases h1 : p = "p1"
    · rw [if_pos h1, if_pos h1]
    · rw [if_neg h1, if_neg h1]
  have h := phase1_failure_isolation apiC4 isoZero "NA1" "s" "e" 6 ["p1", "p2", "p3"]
    .CHALLENGER ⟨[], ⟨[], []⟩⟩ "p2" idsOfC4 0 0 "americas"
    (by simp) hfail hok rfl rfl rfl
  refine ⟨h.1, ?_, ?_, ?_⟩
  · exact (h.2 "m1").mpr ⟨"p1", by simp, by decide, by simp [idsOfC4]⟩
  · exact (h.2 "m3").mpr ⟨"p3", by simp, by decide, by simp [idsOfC4]⟩
  · intro hmem
    obtain ⟨p, _, _, hp3⟩ := (h.2 "zz").mp hmem
    revert hp3
    unfold idsOfC4
    split
    · decide
    · decide

/-- C2 (code bug): the spec requires phase 3 to stamp every participant of a
parsed match with the rank argument and append the match; the code cannot do
either.  At a fetch whose payload parses (empty participants list), the
set_rank attribute lookup raises AttributeError inside the per-id handler, so
the parsed match is silently dropped and the collected list stays empty; and
the participant payload of the repository's own test fixture makes
MatchParticipant.from_json raise TypeError, contradicting the test that
expects Match.from_json to succeed on a ten-participant response. -/
theorem rank_stamp_never_appends :
    (Match.from_json emptyParticipantsPayload).isOkE = true
    ∧ fetch_match_details apiEmptyParticipants "NA1" Rank.CHALLENGER [] "NA1_1" = []
    ∧ MatchParticipant.from_json testParticipantPayload
        = .error (.typeError rankNumMissingMsg) :=
  ⟨rfl, rfl, rfl⟩

/-- An Except value is ok exactly when it wraps a value. -/
lemma isOkE_iff {ε α : Type} (r : Except ε α) : r.isOkE = true ↔ ∃ v, r = .ok v := by
  cases r <;> simp [Except.isOkE]

/-- MatchParticipant.from_json raises on every payload: every branch of its
embedding is an error. -/
lemma participant_from_json_error (payload : Json) :
    ∃ e, MatchParticipant.from_json payload = .error e := by
  unfold MatchParticipant.from_json
  repeat' split
  all_goals exact ⟨_, rfl⟩

/-- Parsing a participant list succeeds only when it is empty, because each
element parse raises. -/
lemma mapM_parts_ok (parts : List Json) (l : List MatchParticipant)
    (h : parts.mapM MatchParticipant.from_json = .ok l) : l = [] := by
  cases parts with
  | nil =>
    simp only [List.mapM_nil, pure, Except.pure] at h
    cases h
    rfl
  | cons p ps =>
    obtain ⟨e, he⟩ := participant_from_json_error p
    rw [List.mapM_cons, he] at h
    simp [Bind.bind, Except.bind] at h

/-- A subscript failure on a dict payload is a KeyError for that key. -/
lemma subscript_obj_error (fields : List (String × Json)) (k : String) (e : PyError)
    (h : (Json.obj fields).subscript k = .error e) : e = .keyError k := by
  simp only [Json.subscript] at h
  cases hf : fields.find? (fun f => f.1 = k) <;> rw [hf] at h <;> cases h <;> rfl

/-- A payload whose subscript succeeds is a dict. -/
lemma subscript_ok_obj (payload : Json) (k : String)
    (h : (payload.subscript k).isOkE = true) : ∃ fs, payload = .obj fs := by
  cases payload with
  | obj fs => exact ⟨fs, rfl⟩
  | null => simp [Json.subscript, Except.isOkE] at h
  | str s => simp [Json.subscript, Except.isOkE] at h
  | num n => simp [Json.subscript, Except.isOkE] at h
  | bool b => simp [Json.subscript, Except.isOkE] at h
  | arr xs => simp [Json.subscript, Except.isOkE] at h

/-- dict.get on a dict never raises. -/
lemma pyGet_obj_ok (fs : List (String × Json)) (k : String) :
    ∃ w, (Json.obj fs).pyGet k = .ok w := by
  cases hf : fs.find? (fun f => f.1 = k) with
  | none => exact ⟨.null, by simp only [Json.pyGet]; rw [hf]⟩
  | some f => exact ⟨f.2, by simp only [Json.pyGet]; rw [hf]⟩

/-- When a champion is resolvable the fallback chain of from_json yields a
champion value. -/
lemma championFieldOf_ok (fields : List (String × Json)) (w : Json)
    (hw : (Json.obj fields).pyGet "championName" = .ok w)
    (hres : championResolvable (Json.obj fields) = true) :
    ∃ c, championFieldOf (Json.obj fields) w = .ok c := by
  unfold championFieldOf
  by_cases ht : w.truthy
  · rw [if_pos ht]
    exact ⟨w, rfl⟩
  · rw [if_neg ht]
    have hci : ((Json.obj fields).subscript "championId").isOkE = true := by
      simp only [championResolvable, Bool.or_eq_true] at hres
      rcases hres with h1 | h2
      · rw [hw] at h1
        simp only [ht] at h1
        exact absurd h1 (by simp [ht])
      · exact h2
    obtain ⟨ci, hci2⟩ := (isOkE_iff _).mp hci
    rw [hci2]
    simp [catchKeyError]

/-- When no champion is resolvable the fallback chain raises the ValueError
about championName and championId both missing. -/
lemma championFieldOf_error (fields : List (String × Json)) (w : Json)
    (hw : (Json.obj fields).pyGet "championName" = .ok w)
    (hres : championResolvable (Json.obj fields) = false) :
    championFieldOf (Json.obj fields) w = .error (.valueError championMissingMsg) := by
  simp only [championResolvable, Bool.or_eq_false_iff] at hres
  obtain ⟨h1, h2⟩ := hres
  rw [hw] at h1
  have hwt : w.truthy = false := h1
  have hcid : ∃ e, (Json.obj fields).subscript "championId" = .error e := by
    cases hcd : (Json.obj fields).subscript "championId" with
    | ok v => rw [hcd] at h2; simp [Except.isOkE] at h2
    | error e => exact ⟨e, rfl⟩
  obtain ⟨e, he⟩ := hcid
  have hek := subscript_obj_error fields "championId" e he
  subst hek
  unfold championFieldOf
  rw [if_neg (by simp [hwt])]
  simp [he, catchKeyError, PyError.isKeyError]

/-- C10 (corrected): MatchParticipant.from_json raises on every payload and
never returns a participant: a well-formed payload reaches the constructor
call, which raises TypeError because the required rank_num field is not passed,
and a malformed dict payload raises ValueError on its first missing field.
Consequently a match payload can parse only with an empty participants list:
Match.from_json succeeds exactly on participant-free payloads, so no
participant-bearing match is ever parsed. -/
theorem participant_parse_always_raises (payload : Json) :
    (MatchParticipant.from_json payload).isOkE = false
    ∧ (wellFormedParticipantPayload payload = true →
        MatchParticipant.from_json payload = .error (.typeError rankNumMissingMsg))
    ∧ (∀ fields, payload = .obj fields → wellFormedParticipantPayload payload = false →
        ∃ msg, MatchParticipant.from_json payload = .error (.valueError msg))
    ∧ (∀ m, Match.from_json payload = .ok m → m.participants = []) := by
  refine ⟨?_, ?_, ?_, ?_⟩
  · obtain ⟨e, he⟩ := participant_from_json_error payload
    rw [he]
    rfl
  · intro hwf
    simp only [wellFormedParticipantPayload, Bool.and_eq_true] at hwf
    obtain ⟨⟨⟨⟨hpu, hch⟩, hip⟩, htp⟩, hti⟩ := hwf
    obtain ⟨fs, rfl⟩ := subscript_ok_obj payload "puuid" hpu
    obtain ⟨vp, hvp⟩ := (isOkE_iff _).mp hpu
    obtain ⟨vi, hvi⟩ := (isOkE_iff _).mp hip
    obtain ⟨vt, hvt⟩ := (isOkE_iff _).mp htp
    obtain ⟨vd, hvd⟩ := (isOkE_iff _).mp hti
    obtain ⟨w, hw⟩ := pyGet_obj_ok fs "championName"
    obtain ⟨w2, hw2⟩ := pyGet_obj_ok fs "win"
    obtain ⟨c, hc⟩ := championFieldOf_ok fs w hw hch
    unfold MatchParticipant.from_json
    simp only [hvp, catchKeyError, hw, hc, hw2, hvi, hvt, hvd]
  · rintro fields rfl hwf
    cases hp : (Json.obj fields).subscript "puuid" with
    | error e =>
      have he := subscript_obj_error fields "puuid" e hp
      subst he
      refine ⟨puuidMissingMsg, ?_⟩
      unfold MatchParticipant.from_json
      simp only [hp, catchKeyError, PyError.isKeyError, if_true]
    | ok vp =>
      obtain ⟨w, hw⟩ := pyGet_obj_ok fields "championName"
      obtain ⟨w2, hw2⟩ := pyGet_obj_ok fields "win"
      by_cases hres : championResolvable (Json.obj fields) = true
      · obtain ⟨c, hc⟩ := championFieldOf_ok fields w hw hres
        cases hip : (Json.obj fields).subscript "individualPosition" with
        | error e =>
          have he := subscript_obj_error fields "individualPosition" e hip
          subst he
          refine ⟨participantFieldsMsg, ?_⟩
          unfold MatchParticipant.from_json
          simp only [hp, catchKeyError, hw, hc, hw2, hip, PyError.isKeyError, if_true]
        | ok vi =>
          cases htp : (Json.obj fields).subscript "teamPosition" with
          | error e =>
            have he := subscript_obj_error fields "teamPosition" e htp
            subst he
            refine ⟨participantFieldsMsg, ?_⟩
            unfold MatchParticipant.from_json
            simp only [hp, catchKeyError, hw, hc, hw2, hip, htp, PyError.isKeyError, if_true]
          | ok vt =>
            cases hti : (Json.obj fields).subscript "teamId" with
            | error e =>
              have he := subscript_obj_error fields "teamId" e hti
              subst he
              refine ⟨participantFieldsMsg, ?_⟩
              unfold MatchParticipant.from_json
              simp only [hp, catchKeyError, hw, hc, hw2, hip, htp, hti, PyError.isKeyError, if_true]
            | ok vd =>
              exfalso
              have hwt : wellFormedParticipantPayload (Json.obj fields) = true := by
                simp only [wellFormedParticipantPayload, Bool.and_eq_true]
                refine ⟨⟨⟨⟨?_, hres⟩, ?_⟩, ?_⟩, ?_⟩
                · rw [hp]; rfl
                · rw [hip]; rfl
                · rw [htp]; rfl
                · rw [hti]; rfl
              rw [hwt] at hwf
              cases hwf
      · have hres2 : championResolvable (Json.obj fields) = false := by
          simpa using hres
        refine ⟨championMissingMsg, ?_⟩
        have hce := championFieldOf_error fields w hw hres2
        unfold MatchParticipant.from_json
        simp only [hp, catchKeyError, hw, hce]
  · intro m h
    unfold Match.from_json at h
    repeat' split at h
    any_goals exact Except.noConfusion h
    injection h with h2
    subst h2
    exact mapM_parts_ok _ _ (by assumption)

/-- Counterexample to C10 as stated: a match payload whose participants list is
empty parses successfully, so it is not true that no match can ever be parsed;
only participant-bearing payloads always fail. -/
theorem match_parse_succeeds_cx :
    Match.from_json emptyParticipantsPayload2 = .ok parsedEmptyMatch := rfl

/-- Witness for C10 at concrete payloads: the repository test-fixture
participant raises the rank_num TypeError, the empty dict raises a ValueError,
and the participant-free payload parses to a match with no participants. -/
theorem participant_parse_always_raises_witness :
    (MatchParticipant.from_json testParticipantPayload).isOkE = false
    ∧ MatchParticipant.from_json testParticipantPayload
        = .error (.typeError rankNumMissingMsg)
    ∧ (∃ msg, MatchParticipant.from_json (Json.obj [])
        = .error (.valueError msg))
    ∧ parsedEmptyMatch.participants = [] := by
  refine ⟨(participant_parse_always_raises testParticipantPayload).1,
    (participant_parse_always_raises testParticipantPayload).2.1 rfl,
    (participant_parse_always_raises (Json.obj [])).2.2.1 [] rfl rfl,
    (participant_parse_always_raises emptyParticipantsPayload2).2.2.2 parsedEmptyMatch rfl⟩
